import Mathlib

/-!
Verification development for the Weather-App repository (two Python variants:
`weather_app.py`, a Tkinter app with autocomplete, humidity, sunrise/sunset,
unit toggle; and `weather_GUI.py`, a simpler Tkinter app with a fixed
code-to-label table). The network layer is modelled by passing the outcome of
each HTTP request (`Except ReqErr _`) as an explicit argument; JSON payloads
are modelled as structures whose fields are `Option`s (an absent JSON key is
`none`). Python `dict.get` with a default becomes `Option.getD`; a bare
subscript that can raise `KeyError`/`IndexError` becomes an `Except`/`Option`
branch matching the enclosing `try`/`except`. Numbers from the API are
modelled as `ℚ` (temperatures, wind speeds, coordinates) or `Int`
(weather codes, humidity percentages).
-/

/-- Outcome of an HTTP request, as the calling code can distinguish it:
`requests.HTTPError` (raised by `raise_for_status`) versus any other
exception (timeout, DNS failure, JSON decode error, `KeyError`, ...). -/
inductive ReqErr where
  | http
  | other
deriving DecidableEq, Repr

/-- One element of the `results` array of the geocoding response.  Every field is
optional: the payload is an opaque external document. -/
structure Candidate where
  name : Option String
  admin1 : Option String
  country : Option String
  latitude : Option ℚ
  longitude : Option ℚ
deriving DecidableEq, Repr

/-- The geocoding response body: a JSON document that may or may not carry a
`results` array. -/
structure GeoResp where
  results : Option (List Candidate)
deriving DecidableEq, Repr

/-- The `current_weather` block of the forecast response. -/
structure CurrentWeather where
  temperature : Option ℚ
  windspeed : Option ℚ
  weathercode : Option Int
  time : Option String
deriving DecidableEq, Repr

/-- The `hourly` block of the forecast response: parallel arrays keyed by
`time`. -/
structure Hourly where
  time : Option (List String)
  relativehumidity_2m : Option (List Int)
deriving DecidableEq, Repr

/-- The `daily` block of the forecast response. -/
structure Daily where
  sunrise : Option (List String)
  sunset : Option (List String)
deriving DecidableEq, Repr

/-- The forecast response body (`RawForecast` in the spec). -/
structure RawForecast where
  current_weather : Option CurrentWeather
  hourly : Option Hourly
  daily : Option Daily
deriving DecidableEq, Repr

/-- Python `cw = data.get(...)` for an absent `current_weather` block: the
empty dict, on which every `.get` returns the default. -/
def defaultCW : CurrentWeather := ⟨none, none, none, none⟩

/-- From `weather_app.py`, `icon_for_code`: map WMO weather codes to an icon
filename by membership in fixed tuples, defaulting to `"clouds.png"`. -/
def icon_for_code (code : Int) : String :=
  if code ∈ [0, 1] then "clear.png"
  else if code ∈ [2, 3] then "clouds.png"
  else if code ∈ [45, 48] then "mist.png"
  else if code ∈ [51, 53, 55, 61, 63, 65, 80, 81, 82] then "rain.png"
  else if code ∈ [71, 73, 75, 77, 85, 86] then "snow.png"
  else if code ∈ [95, 96, 99] then "thunder.png"
  else "clouds.png"

/-- From `weather_app.py`, `c_to_f`: Celsius to Fahrenheit. -/
def c_to_f (c : ℚ) : ℚ := c * 9 / 5 + 32

/-- The one-decimal f-string formatting of Python, modelled as rounding to
the nearest tenth (the rendered string shows exactly this value with one
decimal). -/
def round1 (q : ℚ) : ℚ := ((round (10 * q) : ℤ) : ℚ) / 10

/-- The temperature text of the display: `"--"`, `"{v}°C"` or `"{v}°F"`
where `v` is the one-decimal-rounded value. -/
inductive TempDisp where
  | dashes
  | cel (v : ℚ)
  | fah (v : ℚ)
deriving DecidableEq, Repr

/-- The normalized display record: the values `update_ui_from_weather`
writes into the temperature/condition/humidity/wind/sunrise/sunset widgets.
`humidity = none` and `wind = none` render as the placeholder `"--"`. -/
structure DisplayRec where
  icon : String
  temp : TempDisp
  cond : String
  humidity : Option Int
  wind : Option ℚ
  sunrise : String
  sunset : String
deriving DecidableEq, Repr

/-- The humidity lookup inside `update_ui_from_weather` (weather_app.py
lines 320-333).  `now_iso` truthiness: `None` and `""` are falsy.  A found
timestamp reads `hourly.get("relativehumidity_2m", ["--"]*len(times))[idx]`
(absent series or an out-of-range index yields the `"--"` placeholder, i.e.
`none`); a missing timestamp falls back to
`hourly.get("relativehumidity_2m", ["--"])[0]`, the FIRST hourly entry. -/
def humidity_from (data : RawForecast) : Option Int :=
  match (data.current_weather.getD defaultCW).time with
  | none => none
  | some t =>
    if t = "" then none
    else
      match data.hourly with
      | none => none
      | some h =>
        match h.time with
        | none => none
        | some times =>
          if t ∈ times then
            match h.relativehumidity_2m with
            | some hum => hum.get? (times.indexOf t)
            | none => none
          else
            match h.relativehumidity_2m with
            | some hum => hum.head?
            | none => none

/-- Python `str.split` with a one-character separator, on character lists:
splitting never yields the empty list (an input with no separator yields the
one-piece list). -/
def splitChar (sep : Char) : List Char → List (List Char)
  | [] => [[]]
  | c :: t =>
    if c = sep then [] :: splitChar sep t
    else
      match splitChar sep t with
      | [] => [[c]]
      | g :: gs => (c :: g) :: gs

/-- Python `str.strip`: drop whitespace from both ends. -/
def pyStrip (s : String) : String :=
  ⟨((s.data.dropWhile Char.isWhitespace).reverse.dropWhile Char.isWhitespace).reverse⟩

/-- Python `s.split("T")[-1]`: the text after the last date separator (the whole
string when no `"T"` occurs). -/
def timePart (e : String) : String := ⟨(splitChar 'T' e.data).getLastD []⟩

/-- The sunrise/sunset extraction of `update_ui_from_weather` (weather_app.py
lines 340-348).  Both assignments sit in one `try`: an `IndexError` on the
sunrise line (empty list) leaves sunset at `"--"` too. -/
def sunrise_sunset (data : RawForecast) : String × String :=
  let d := data.daily.getD ⟨none, none⟩
  match d.sunrise.getD ["--"] with
  | [] => ("--", "--")
  | e :: _ =>
    let sr := timePart e
    match d.sunset.getD ["--"] with
    | [] => (sr, "--")
    | f :: _ => (sr, timePart f)

/-- From `weather_app.py`, `WeatherApp.update_ui_from_weather`: normalize a raw
forecast into the display record, reading every key defensively. -/
def update_ui_from_weather (isF : Bool) (data : RawForecast)
    (name country : String) : DisplayRec :=
  let cw := data.current_weather.getD defaultCW
  let cond_text :=
    match cw.weathercode with
    | some c => "Weather code " ++ toString c
    | none => "Unknown"
  let temp :=
    match cw.temperature with
    | none => TempDisp.dashes
    | some c => if isF then .fah (round1 (c_to_f c)) else .cel (round1 c)
  let icon :=
    match cw.weathercode with
    | some c => icon_for_code c
    | none => "clouds.png"
  let srss := sunrise_sunset data
  { icon := icon
    temp := temp
    cond := cond_text ++ " — " ++ name ++ ", " ++ country
    humidity := humidity_from data
    wind := cw.windspeed
    sunrise := srss.1
    sunset := srss.2 }

/-- Python truthiness of an optional string: `None` and `""` are falsy. -/
def truthyStr : Option String → Bool
  | none => false
  | some s => s ≠ ""

/-- One autocomplete line of `geocode_query`:
`", ".join(p for p in [name, admin1?, country?] if p)`. -/
def fmt_candidate (r : Candidate) : String :=
  String.intercalate ", "
    (([r.name] ++ (if truthyStr r.admin1 then [r.admin1] else [])
        ++ (if truthyStr r.country then [r.country] else [])).filterMap id
      |>.filter (fun s => s ≠ ""))

/-- From `weather_app.py`, `geocode_query`: autocomplete lookup.  The whole body
sits in `try: ... except Exception: return []`, so every failure — and a
response without a `results` key — comes back as the empty list. -/
def geocode_query (resp : Except ReqErr GeoResp) : List String :=
  match resp with
  | .error _ => []
  | .ok j =>
    match j.results with
    | none => []
    | some rs => rs.map fmt_candidate

/-- From `weather_app.py`, `geocode_first`: first matching place.  No `try` here:
request/status/decode errors propagate to the caller; a missing or empty
`results` array returns `None`; `float(r0["latitude"])` on a candidate
without coordinates raises a `KeyError` (a non-HTTP exception). -/
def geocode_first (resp : Except ReqErr GeoResp) :
    Except ReqErr (Option (ℚ × ℚ × String × String)) :=
  match resp with
  | .error e => .error e
  | .ok j =>
    match j.results with
    | none => .ok none
    | some [] => .ok none
    | some (r0 :: _) =>
      match r0.latitude, r0.longitude with
      | some la, some lo => .ok (some (la, lo, r0.name.getD "", r0.country.getD ""))
      | _, _ => .error .other

/-- Outcome of `WeatherApp.on_search`: a warning dialog for blank input, the
"Location not found" dialog, the HTTP-error dialog, the generic error
dialog, or an updated display. -/
inductive SearchOutcome where
  | warnInput
  | notFound
  | httpErr
  | genErr
  | display (rec : DisplayRec)
deriving DecidableEq, Repr

/-- From `weather_app.py`, `WeatherApp.on_search`: strip the query, geocode, and
on success fetch the forecast and update the UI.  `requests.HTTPError` and
other exceptions are caught separately; a `None` geocode result reports
"Location not found" and never reaches `fetch_weather`. -/
def on_search (place : String) (isF : Bool) (geo : Except ReqErr GeoResp)
    (fetch : Except ReqErr RawForecast) : SearchOutcome :=
  if pyStrip place = "" then .warnInput
  else
    match geocode_first geo with
    | .error .http => .httpErr
    | .error .other => .genErr
    | .ok none => .notFound
    | .ok (some (_la, _lo, name, country)) =>
      match fetch with
      | .error .http => .httpErr
      | .error .other => .genErr
      | .ok data => .display (update_ui_from_weather isF data name country)

/-- The mutable state of `WeatherApp` that `toggle_units` can touch: the
unit flag, the label of the unit button, the last-searched location, and the
displayed weather values. -/
structure AppState where
  is_fahrenheit : Bool
  unit_btn : String
  current_latlon : Option (ℚ × ℚ × String × String)
  display : DisplayRec
deriving DecidableEq, Repr

/-- From `weather_app.py`, `WeatherApp.toggle_units`: negate the flag, relabel the
button, then — only when a location is stored — re-fetch and re-render inside
`try: ... except Exception: pass`. -/
def toggle_units (st : AppState) (fetch : Except ReqErr RawForecast) : AppState :=
  let st1 : AppState :=
    { st with
      is_fahrenheit := !st.is_fahrenheit
      unit_btn := if !st.is_fahrenheit then "°C" else "°F" }
  match st1.current_latlon with
  | none => st1
  | some (_la, _lo, name, country) =>
    match fetch with
    | .error _ => st1
    | .ok data =>
      { st1 with
        display := update_ui_from_weather st1.is_fahrenheit data name country }

/-- From `weather_GUI.py`, `WEATHER_CODE_MAP`: the fixed weather-code-to-label
table. -/
def WEATHER_CODE_MAP : List (Int × String) :=
  [(0, "Clear sky ☀️"),
   (1, "Mainly clear 🌤️"),
   (2, "Partly cloudy ⛅"),
   (3, "Overcast ☁️"),
   (45, "Fog 🌫️"),
   (48, "Depositing Rime Fog 🌫️"),
   (51, "Light Drizzle 🌦️"),
   (53, "Moderate Drizzle 🌧️"),
   (55, "Dense Drizzle 🌧️"),
   (61, "Slight Rain 🌦️"),
   (63, "Moderate Rain 🌧️"),
   (65, "Heavy Rain 🌧️"),
   (71, "Light Snow ❄️"),
   (73, "Snow ❄️"),
   (75, "Heavy Snow ❄️❄️"),
   (80, "Rain showers 🌦️"),
   (81, "Rain showers 🌧️"),
   (82, "Violent Rain 🌧️⚡"),
   (95, "Thunderstorm ⛈️"),
   (99, "Hailstorm ⛈️")]

/-- From `weather_GUI.py`, `show_weather` line 80:
`condition = WEATHER_CODE_MAP.get(code, "Unknown Weather")`. -/
def condition_label (code : Int) : String :=
  (WEATHER_CODE_MAP.lookup code).getD "Unknown Weather"

/-- From `weather_GUI.py`, `get_location`: `None` when the `results` key is
absent; otherwise `data["results"][0]` is subscripted directly, so an empty
array raises `IndexError` and a candidate missing any of `latitude`,
`longitude`, `name`, `country` raises `KeyError` — both propagate to the
bare `except` of the caller. -/
def get_location (resp : Except ReqErr GeoResp) :
    Except ReqErr (Option (ℚ × ℚ × String × String)) :=
  match resp with
  | .error e => .error e
  | .ok j =>
    match j.results with
    | none => .ok none
    | some [] => .error .other
    | some (info :: _) =>
      match info.latitude, info.longitude, info.name, info.country with
      | some la, some lo, some n, some c => .ok (some (la, lo, n, c))
      | _, _, _, _ => .error .other

/-- From `weather_GUI.py`, `get_weather`: `return r.json()["current_weather"]` —
a response without that key raises `KeyError`. -/
def get_weather (resp : Except ReqErr RawForecast) : Except ReqErr CurrentWeather :=
  match resp with
  | .error e => .error e
  | .ok j =>
    match j.current_weather with
    | some cw => .ok cw
    | none => .error .other

/-- The four values `show_weather` interpolates into its result label. -/
structure GUIRecord where
  name : String
  country : String
  temperature : ℚ
  cond : String
  wind : ℚ
deriving DecidableEq, Repr

/-- Outcome of `show_weather` in `weather_GUI.py`: the blank-input warning,
the "City not found!" dialog, the catch-all "Something went wrong!" dialog,
or a rendered result label. -/
inductive GUIOutcome where
  | warnInput
  | cityNotFound
  | genErr
  | display (rec : GUIRecord)
deriving DecidableEq, Repr

/-- From `weather_GUI.py`, `show_weather`: the whole pipeline.  Everything after
the blank check sits in one `try: ... except Exception`, so any raised error
(network, empty `results` array, missing JSON key) ends in the generic
dialog; `weather["temperature"]` / `["windspeed"]` / `["weathercode"]` are
direct subscripts that raise on absence. -/
def show_weather (city : String) (geo : Except ReqErr GeoResp)
    (fetch : Except ReqErr RawForecast) : GUIOutcome :=
  if pyStrip city = "" then .warnInput
  else
    match get_location geo with
    | .error _ => .genErr
    | .ok none => .cityNotFound
    | .ok (some (_la, _lo, name, country)) =>
      match get_weather fetch with
      | .error _ => .genErr
      | .ok cw =>
        match cw.temperature, cw.windspeed, cw.weathercode with
        | some t, some w, some code =>
          .display ⟨name, country, t, condition_label code, w⟩
        | _, _, _ => .genErr

/-- Boolean test that the first character list is an initial segment of the
second. -/
def chrLead : List Char → List Char → Bool
  | [], _ => true
  | _ :: _, [] => false
  | a :: as, b :: bs => a = b && chrLead as bs

/-- Boolean test that the first character list occurs contiguously inside
the second. -/
def chrSub (n : List Char) : List Char → Bool
  | [] => n.isEmpty
  | c :: t => chrLead n (c :: t) || chrSub n t

/-- Whether `needle` occurs as a contiguous substring of `hay`. -/
def strContains (hay needle : String) : Bool := chrSub needle.data hay.data

/-- The icon categories named by the band partition in the spec. -/
inductive IconCategory where
  | clear
  | cloudy
  | fog
  | rain
  | snow
  | thunder
deriving DecidableEq, Repr

/-- The band partition written from the words of the spec and of claim C8:
clear for 0 and 1, cloudy for 2 and 3, fog/mist for 45 and 48, rain for the
drizzle/rain/shower codes, snow for the snow codes, thunderstorm for 95, 96
and 99; every code outside all bands defaults to the cloudy category. -/
def iconCategorySpec (code : Int) : IconCategory :=
  if code ∈ [0, 1] then .clear
  else if code ∈ [2, 3] then .cloudy
  else if code ∈ [45, 48] then .fog
  else if code ∈ [51, 53, 55, 61, 63, 65, 80, 81, 82] then .rain
  else if code ∈ [71, 73, 75, 77, 85, 86] then .snow
  else if code ∈ [95, 96, 99] then .thunder
  else .cloudy

/-- The icon file the application uses for each category. -/
def categoryIcon : IconCategory → String
  | .clear => "clear.png"
  | .cloudy => "clouds.png"
  | .fog => "mist.png"
  | .rain => "rain.png"
  | .snow => "snow.png"
  | .thunder => "thunder.png"

/-! Projection lemmas for the display record. -/

theorem update_humidity (isF : Bool) (raw : RawForecast) (n co : String) :
    (update_ui_from_weather isF raw n co).humidity = humidity_from raw := rfl

theorem update_sunrise (isF : Bool) (raw : RawForecast) (n co : String) :
    (update_ui_from_weather isF raw n co).sunrise = (sunrise_sunset raw).1 := rfl

/-- C8: for every integer weather code, the icon chosen by the code is the
icon of the category assigned by the fixed band partition of the spec
(unmapped codes falling to the cloudy category). -/
theorem C8_icon_bands (code : Int) :
    icon_for_code code = categoryIcon (iconCategorySpec code) := by
  unfold icon_for_code iconCategorySpec categoryIcon
  split_ifs <;> rfl

theorem C8_icon_bands_witness :
    icon_for_code 45 = categoryIcon (iconCategorySpec 45) := C8_icon_bands 45

/-- C10: when the re-fetch inside a unit toggle fails, the flag is still
negated and the button label still switches, while the displayed weather
values and the stored location are untouched. -/
theorem C10_toggle_frame (st : AppState) (e : ReqErr) :
    (toggle_units st (.error e)).is_fahrenheit = !st.is_fahrenheit ∧
    (toggle_units st (.error e)).unit_btn
      = (if !st.is_fahrenheit then "°C" else "°F") ∧
    (toggle_units st (.error e)).display = st.display ∧
    (toggle_units st (.error e)).current_latlon = st.current_latlon := by
  unfold toggle_units
  cases h : st.current_latlon with
  | none => simp [h]
  | some p =>
    obtain ⟨la, lo, n, c⟩ := p
    simp [h]

theorem C10_toggle_frame_witness :
    (toggle_units ⟨false, "°F", some (1, 2, "Paris", "France"),
        ⟨"clear.png", .cel 15, "c", some 40, some 10, "06:30", "18:00"⟩⟩
      (.error ReqErr.other)).display
      = ⟨"clear.png", .cel 15, "c", some 40, some 10, "06:30", "18:00"⟩ :=
  (C10_toggle_frame ⟨false, "°F", some (1, 2, "Paris", "France"),
      ⟨"clear.png", .cel 15, "c", some 40, some 10, "06:30", "18:00"⟩⟩
    ReqErr.other).2.2.1

/-- C1 as stated fails: code 4 has no entry in the fixed table, and the
label produced for the display is the fixed string "Unknown Weather",
which does not contain the numeric code. -/
theorem C1_counterexample :
    WEATHER_CODE_MAP.lookup 4 = none ∧
    condition_label 4 = "Unknown Weather" ∧
    strContains (condition_label 4) (toString (4 : Int)) = false := by decide

/-- C1 amended: a code with an entry in the fixed table gets exactly the
entry of the table; a code without one gets the fixed fallback label
"Unknown Weather" (which does not mention the code); the weather_app
variant, which uses no table, always embeds the numeric code in its
condition text. -/
theorem C1_labels (c : Int) :
    (∀ s : String, (c, s) ∈ WEATHER_CODE_MAP → condition_label c = s) ∧
    (WEATHER_CODE_MAP.lookup c = none → condition_label c = "Unknown Weather") ∧
    (∀ (isF : Bool) (raw : RawForecast) (n co : String),
      (raw.current_weather.getD defaultCW).weathercode = some c →
      ∃ pre post : String,
        (update_ui_from_weather isF raw n co).cond = pre ++ toString c ++ post) := by
  refine ⟨?_, ?_, ?_⟩
  · intro s hs
    fin_cases hs <;> rfl
  · intro h
    simp [condition_label, h]
  · intro isF raw n co h
    refine ⟨"Weather code ", " — " ++ n ++ ", " ++ co, ?_⟩
    simp [update_ui_from_weather, h, String.append_assoc]

theorem C1_labels_witness :
    condition_label 0 = "Clear sky ☀️" ∧
    condition_label 4 = "Unknown Weather" ∧
    ∃ pre post : String,
      (update_ui_from_weather false ⟨some ⟨none, none, some 42, none⟩, none, none⟩
        "X" "Y").cond = pre ++ toString (42 : Int) ++ post :=
  ⟨(C1_labels 0).1 "Clear sky ☀️" (by decide),
   (C1_labels 4).2.1 (by decide),
   (C1_labels 42).2.2 false ⟨some ⟨none, none, some 42, none⟩, none, none⟩ "X" "Y" rfl⟩

/-- C4: a Celsius temperature present in the forecast is displayed in
Fahrenheit as Celsius × 9/5 + 32 rounded to one decimal; with the toggle
off the same stored Celsius value is displayed unconverted; `c_to_f` is
exactly the affine conversion.  The stored value is never mutated: the
normalizer is a pure function of the raw payload, and both display modes
read the same `some c`. -/
theorem C4_unit_conversion (raw : RawForecast) (n co : String) (c : ℚ)
    (h : (raw.current_weather.getD defaultCW).temperature = some c) :
    (update_ui_from_weather true raw n co).temp
      = TempDisp.fah (round1 (c * 9 / 5 + 32)) ∧
    (update_ui_from_weather false raw n co).temp = TempDisp.cel (round1 c) ∧
    c_to_f c = c * 9 / 5 + 32 := by
  refine ⟨?_, ?_, rfl⟩ <;> simp [update_ui_from_weather, h, c_to_f]

theorem C4_unit_conversion_witness :
    (update_ui_from_weather true ⟨some ⟨some 15, none, none, none⟩, none, none⟩
      "X" "Y").temp = TempDisp.fah 59 ∧
    (update_ui_from_weather false ⟨some ⟨some 15, none, none, none⟩, none, none⟩
      "X" "Y").temp = TempDisp.cel 15 := by
  have h := C4_unit_conversion ⟨some ⟨some 15, none, none, none⟩, none, none⟩
    "X" "Y" 15 rfl
  refine ⟨?_, ?_⟩
  · rw [h.1]; norm_num [round1, round_eq]
  · rw [h.2.1]; norm_num [round1, round_eq]

/-- C5 as stated fails: `geocode_query` wraps its body in a blanket
`except` returning `[]`, so a network/timeout failure comes back as the
empty result set, identical to the zero-candidate outcomes. -/
theorem C5_counterexample :
    geocode_query (Except.error ReqErr.other) = [] ∧
    geocode_query (Except.ok ⟨none⟩) = [] ∧
    geocode_query (Except.ok ⟨some []⟩) = [] := ⟨rfl, rfl, rfl⟩

/-- C5 amended: `geocode_first` does surface failures distinctly — an error
outcome propagates as an error, both zero-candidate responses give the
normal `none` result, and the two are different constructors — while
`geocode_query` returns `[]` for every failure. -/
theorem C5_geocode_outcomes :
    (∀ e, geocode_first (Except.error e) = Except.error e) ∧
    geocode_first (Except.ok ⟨none⟩) = Except.ok none ∧
    geocode_first (Except.ok ⟨some []⟩) = Except.ok none ∧
    (∀ e, Except.error e
      ≠ (Except.ok none : Except ReqErr (Option (ℚ × ℚ × String × String)))) ∧
    (∀ e, geocode_query (Except.error e) = []) := by
  refine ⟨fun e => rfl, rfl, rfl, ?_, fun e => rfl⟩
  intro e h
  cases h

theorem C5_geocode_outcomes_witness :
    geocode_first (Except.error ReqErr.http) = Except.error ReqErr.http ∧
    geocode_first (Except.ok ⟨none⟩) = Except.ok none :=
  ⟨C5_geocode_outcomes.1 ReqErr.http, C5_geocode_outcomes.2.1⟩

/-- C7 as stated fails on the `weather_GUI.py` variant: a zero-candidate
response whose `results` array is present but empty makes `get_location`
raise `IndexError`, so the pipeline reports the generic error dialog, not
the not-found outcome. -/
theorem C7_counterexample :
    show_weather "Zzznotacity" (Except.ok ⟨some []⟩) (Except.error ReqErr.other)
      = GUIOutcome.genErr ∧
    GUIOutcome.genErr ≠ GUIOutcome.cityNotFound := by decide

/-- C7 amended: on a zero-candidate geocode outcome neither pipeline ever
consults the forecast fetcher (the result does not depend on the fetch
argument); `weather_app` reports not-found for both zero-candidate response
shapes, while the GUI variant reports not-found only when the `results` key
is absent and falls into the generic error dialog when the array is empty. -/
theorem C7_zero_candidates (p city : String) (isF : Bool)
    (f f1 f2 : Except ReqErr RawForecast)
    (hp : pyStrip p ≠ "") (hc : pyStrip city ≠ "") :
    on_search p isF (Except.ok ⟨none⟩) f = SearchOutcome.notFound ∧
    on_search p isF (Except.ok ⟨some []⟩) f = SearchOutcome.notFound ∧
    on_search p isF (Except.ok ⟨none⟩) f1 = on_search p isF (Except.ok ⟨none⟩) f2 ∧
    on_search p isF (Except.ok ⟨some []⟩) f1
      = on_search p isF (Except.ok ⟨some []⟩) f2 ∧
    show_weather city (Except.ok ⟨none⟩) f = GUIOutcome.cityNotFound ∧
    show_weather city (Except.ok ⟨some []⟩) f = GUIOutcome.genErr ∧
    show_weather city (Except.ok ⟨none⟩) f1 = show_weather city (Except.ok ⟨none⟩) f2 ∧
    show_weather city (Except.ok ⟨some []⟩) f1
      = show_weather city (Except.ok ⟨some []⟩) f2 := by
  unfold on_search show_weather geocode_first get_location
  simp [hp, hc]

theorem C7_zero_candidates_witness :
    on_search "Zzznotacity" false (Except.ok ⟨none⟩) (Except.error ReqErr.other)
      = SearchOutcome.notFound ∧
    show_weather "Zzznotacity" (Except.ok ⟨none⟩) (Except.error ReqErr.other)
      = GUIOutcome.cityNotFound := by
  have h := C7_zero_candidates "Zzznotacity" "Zzznotacity" false
    (Except.error ReqErr.other) (Except.error ReqErr.other)
    (Except.ok ⟨none, none, none⟩) (by decide) (by decide)
  exact ⟨h.1, h.2.2.2.2.1⟩

/-- C6 as stated fails on the `weather_GUI.py` variant: with a good geocode
result, a forecast response with no `current_weather` block raises inside
`get_weather`, and the pipeline abandons the whole display with the generic
error dialog instead of rendering placeholders. -/
theorem C6_counterexample :
    show_weather "Paris"
      (Except.ok ⟨some [⟨some "Paris", none, some "France", some 48, some 2⟩]⟩)
      (Except.ok ⟨none, none, none⟩) = GUIOutcome.genErr ∧
    show_weather "Paris"
      (Except.ok ⟨some [⟨some "Paris", none, some "France", some 48, some 2⟩]⟩)
      (Except.ok ⟨some ⟨none, some 10, some 3, some "2024-01-01T12:00"⟩, none, none⟩)
      = GUIOutcome.genErr := by decide

/-- C6 amended: the `weather_app.py` normalizer absorbs every absent field
into a placeholder and still renders the rest of the record (here: with the
whole `current_weather` block absent, temperature, wind, humidity, condition
and icon all fall back to their placeholders while sunrise and sunset still
render from the daily block); the GUI variant instead raises on an absent
`current_weather` — or an absent temperature, wind or code field — and
abandons the whole display. -/
theorem C6_missing_fields :
    (∀ (isF : Bool) (raw : RawForecast) (n co : String),
      raw.current_weather = none →
      (update_ui_from_weather isF raw n co).temp = TempDisp.dashes ∧
      (update_ui_from_weather isF raw n co).wind = none ∧
      (update_ui_from_weather isF raw n co).humidity = none ∧
      (update_ui_from_weather isF raw n co).icon = "clouds.png" ∧
      (update_ui_from_weather isF raw n co).cond
        = "Unknown" ++ " — " ++ n ++ ", " ++ co ∧
      (update_ui_from_weather isF raw n co).sunrise = (sunrise_sunset raw).1 ∧
      (update_ui_from_weather isF raw n co).sunset = (sunrise_sunset raw).2) ∧
    (∀ f : RawForecast, f.current_weather = none →
      get_weather (Except.ok f) = Except.error ReqErr.other) ∧
    (∀ (city : String) (geo : Except ReqErr GeoResp) (f : RawForecast),
      f.current_weather = none →
      show_weather city geo (Except.ok f) = GUIOutcome.warnInput ∨
      show_weather city geo (Except.ok f) = GUIOutcome.cityNotFound ∨
      show_weather city geo (Except.ok f) = GUIOutcome.genErr) := by
  refine ⟨?_, ?_, ?_⟩
  · intro isF raw n co h
    refine ⟨?_, ?_, ?_, ?_, ?_, rfl, rfl⟩ <;>
      simp [update_ui_from_weather, humidity_from, h, defaultCW]
  · intro f h
    simp [get_weather, h]
  · intro city geo f h
    unfold show_weather
    split
    · exact Or.inl rfl
    · rcases hg : get_location geo with e | lo
      · simp [hg]
      · rcases lo with _ | ⟨⟨la, lon, nm, co⟩⟩
        · simp [hg]
        · simp [hg, get_weather, h]

theorem C6_missing_fields_witness :
    (update_ui_from_weather false
      ⟨none, none, some ⟨some ["2024-01-01T06:30"], some ["2024-01-01T18:00"]⟩⟩
      "X" "Y").temp = TempDisp.dashes ∧
    (update_ui_from_weather false
      ⟨none, none, some ⟨some ["2024-01-01T06:30"], some ["2024-01-01T18:00"]⟩⟩
      "X" "Y").sunrise = (sunrise_sunset
        ⟨none, none, some ⟨some ["2024-01-01T06:30"], some ["2024-01-01T18:00"]⟩⟩).1 ∧
    get_weather (Except.ok ⟨none, none, none⟩) = Except.error ReqErr.other := by
  have h := C6_missing_fields
  have h1 := h.1 false
    ⟨none, none, some ⟨some ["2024-01-01T06:30"], some ["2024-01-01T18:00"]⟩⟩
    "X" "Y" rfl
  exact ⟨h1.1, h1.2.2.2.2.2.1, h.2.1 ⟨none, none, none⟩ rfl⟩

/-- C9: an absent or empty `daily.sunrise` series renders the sunrise field
as the placeholder (the normalizer is a total function, so producing the
record never raises); a non-empty series renders the text after the date
separator of its first entry. -/
theorem sunrise_fst (data : RawForecast) :
    (sunrise_sunset data).1 =
      (match (data.daily.getD ⟨none, none⟩).sunrise.getD ["--"] with
        | [] => "--"
        | e :: _ => timePart e) := by
  unfold sunrise_sunset
  cases h1 : (data.daily.getD ⟨none, none⟩).sunrise.getD ["--"] with
  | nil => simp [h1]
  | cons e es =>
    cases h2 : (data.daily.getD ⟨none, none⟩).sunset.getD ["--"] <;> simp [h1, h2]

theorem C9_sunrise (isF : Bool) (raw : RawForecast) (n co : String) :
    ((raw.daily.getD ⟨none, none⟩).sunrise = none →
      (update_ui_from_weather isF raw n co).sunrise = "--") ∧
    ((raw.daily.getD ⟨none, none⟩).sunrise = some [] →
      (update_ui_from_weather isF raw n co).sunrise = "--") ∧
    (∀ (e : String) (rest : List String),
      (raw.daily.getD ⟨none, none⟩).sunrise = some (e :: rest) →
      (update_ui_from_weather isF raw n co).sunrise = timePart e) := by
  rw [update_sunrise, sunrise_fst]
  refine ⟨?_, ?_, ?_⟩
  · intro h
    rw [h]
    decide
  · intro h
    rw [h]
    rfl
  · intro e rest h
    rw [h]
    rfl

theorem C9_sunrise_witness :
    (update_ui_from_weather false ⟨none, none, some ⟨some [], none⟩⟩ "X" "Y").sunrise
      = "--" ∧
    (update_ui_from_weather false ⟨none, none,
        some ⟨some ["2024-01-01T06:30"], none⟩⟩ "X" "Y").sunrise
      = timePart "2024-01-01T06:30" ∧
    timePart "2024-01-01T06:30" = "06:30" :=
  ⟨(C9_sunrise false ⟨none, none, some ⟨some [], none⟩⟩ "X" "Y").2.1 rfl,
   (C9_sunrise false ⟨none, none, some ⟨some ["2024-01-01T06:30"], none⟩⟩
     "X" "Y").2.2 "2024-01-01T06:30" [] rfl,
   by decide⟩

/-- C2 as stated fails on two edge payloads.  First, an empty-string
timestamp: Python treats `now_iso = ""` as falsy, so the lookup branch is
skipped entirely even though the hourly series contains `""` at index 0 with
humidity 55 — the record shows the placeholder, not 55.  Second, a duplicate
timestamp: `times.index` returns the first occurrence, so with the timestamp
also at index 1 (humidity 60) the record shows the value at index 0
(humidity 50), not 60. -/
theorem C2_counterexample :
    ((⟨some ⟨none, none, none, some ""⟩, some ⟨some [""], some [55]⟩, none⟩ :
        RawForecast).current_weather.getD defaultCW).time = some "" ∧
    ("" ∈ [""]) ∧ [(55 : Int)].get? 0 = some 55 ∧
    (update_ui_from_weather false
      ⟨some ⟨none, none, none, some ""⟩, some ⟨some [""], some [55]⟩, none⟩
      "X" "Y").humidity = none ∧
    ("2024-01-01T12:00" ∈ ["2024-01-01T11:00", "2024-01-01T12:00"]) ∧
    ["2024-01-01T11:00", "2024-01-01T12:00"].get? 1 = some "2024-01-01T12:00" ∧
    [(50 : Int), 60].get? 1 = some 60 ∧
    (update_ui_from_weather false
      ⟨some ⟨none, none, none, some "2024-01-01T12:00"⟩,
       some ⟨some ["2024-01-01T12:00", "2024-01-01T12:00"], some [50, 60]⟩, none⟩
      "X" "Y").humidity = some 50 := by decide

/-- C2 amended: when the current-conditions timestamp is non-empty and
occurs in `hourly.time` with first occurrence at index `i`, and the humidity
series has an entry at `i`, the record shows exactly
`hourly.relativehumidity_2m[i]`. -/
theorem C2_humidity_indexed (isF : Bool) (raw : RawForecast) (n co t : String)
    (hl : Hourly) (times : List String) (hum : List Int) (i : Nat)
    (h1 : (raw.current_weather.getD defaultCW).time = some t) (h2 : t ≠ "")
    (h3 : raw.hourly = some hl) (h4 : hl.time = some times)
    (h5 : t ∈ times) (h6 : times.indexOf t = i)
    (h7 : hl.relativehumidity_2m = some hum) (h8 : i < hum.length) :
    (update_ui_from_weather isF raw n co).humidity = some (hum.get ⟨i, h8⟩) := by
  rw [update_humidity]
  unfold humidity_from
  rw [h1]
  simp only [h3]
  rw [if_neg h2]
  simp only [h4]
  rw [if_pos h5]
  simp only [h7, h6]
  exact List.get?_eq_get h8

theorem C2_humidity_indexed_witness :
    (update_ui_from_weather false
      ⟨some ⟨none, none, none, some "2024-01-01T12:00"⟩,
       some ⟨some ["2024-01-01T11:00", "2024-01-01T12:00"], some [40, 55]⟩, none⟩
      "X" "Y").humidity = some 55 := by
  have h := C2_humidity_indexed false
    ⟨some ⟨none, none, none, some "2024-01-01T12:00"⟩,
     some ⟨some ["2024-01-01T11:00", "2024-01-01T12:00"], some [40, 55]⟩, none⟩
    "X" "Y" "2024-01-01T12:00"
    ⟨some ["2024-01-01T11:00", "2024-01-01T12:00"], some [40, 55]⟩
    ["2024-01-01T11:00", "2024-01-01T12:00"] [40, 55] 1
    rfl (by decide) rfl rfl (by decide) (by decide) rfl (by decide)
  exact h

/-- C3 is the documented intent but not what the code does: with an hourly
series present whose timestamps do not contain the current-conditions
timestamp, the code substitutes the FIRST hourly humidity value instead of
the placeholder. -/
theorem C3_humidity_fallback :
    ¬ ("2024-01-01T12:00" ∈ ["2024-01-01T13:00"]) ∧
    (update_ui_from_weather false
      ⟨some ⟨none, none, none, some "2024-01-01T12:00"⟩,
       some ⟨some ["2024-01-01T13:00"], some [55]⟩, none⟩
      "X" "Y").humidity = some 55 := by decide
